import Mathlib

/-!
Verification development for the ITSM compliance-deviation engine of this
repository.  The definitions below are a shallow embedding of the evaluator
code in `ITSM-COMPLEX/run_itsm_analysis.py` (class `DeviationAnalysisAgent`)
and `ITSM-Multi_Agent/run_itsm_main_agent.py` (class
`IntelligentAnalysisAgent`).

Modelling conventions:
* Timestamps are rationals counting seconds (`pandas` timestamps; the code
  divides `total_seconds()` by 3600 to obtain hours).  Python floats are
  modelled as rationals; `round(x, 1)` / `round(x, 2)` become `round1` /
  `round2` below.
* A CSV cell that is missing (pandas `NaN` / `NaT`) is modelled as `none` of
  an `Option`.  A comparison of the source form `nan > x` is `False` in
  Python, so a check guarded by such a comparison silently passes; the
  embedding expresses this by skipping the check when the field is `none`.
  Note that the float `NaN` itself is truthy, so a source branch of the form
  `if incident.get('Resolved_Date'):` takes its then-arm also for a missing
  cell; see `risk_status_of`.
* `dict.get(k, default)` is `List.lookup` followed by `Option.getD`; a plain
  `dict[k]` access on a key that is absent raises `KeyError`, which the
  embedding reflects by returning `Except.error "KeyError"` from the
  evaluation in which the access occurs.
* The `' | '`-joined CSV cells `Steps_Completed` and `Obtained_Approvals`
  are modelled post-split, as `List String`.
* The code attaches pre-formatted `detail` strings built from the same
  values that are stored structurally (`expected`, `actual`,
  `deviation_pct`, `missing_steps`, `missing`, required/obtained lists);
  the embedding keeps the structured fields and omits the redundant
  rendered strings, as well as inert pass-through fields (technician name
  and similar) that no check reads.
-/

/-- Python `round(x, 1)` modelled on rationals (ties are negligible here:
the claims only evaluate it away from half-way points). -/
def round1 (x : ℚ) : ℚ := (round (x * 10) : ℤ) / 10

/-- Python `round(x, 2)` modelled on rationals. -/
def round2 (x : ℚ) : ℚ := (round (x * 100) : ℤ) / 100

/-- One SLA row of `incident_rules['sla']`: `{'response': r, 'resolution': h}`. -/
structure SlaEntry where
  response : ℚ
  resolution : ℚ
deriving DecidableEq

/-- The rule catalog built by `DocumentRetrievalAgent._parse_incident_rules`
and `_parse_change_rules` (identical tables in `GitHubDocumentAgent`).
Association lists model the string-keyed Python dicts. -/
structure RuleCatalog where
  sla : List (String × SlaEntry)
  required_steps : List (String × List String)
  required_approvals : List (String × List String)
  max_reassignments : ℕ
  kb_required_priorities : List String
  testing_required_risks : List String
deriving DecidableEq

/-- Source: `get_incident_sla`, `self.incident_rules['sla'].get(priority, {})`.
The empty-dict default leads to a `KeyError` at the first subscript of the
result, which the evaluators model as `Except.error` (see `analyze_incident`). -/
def get_incident_sla (rules : RuleCatalog) (priority : String) : Option SlaEntry :=
  rules.sla.lookup priority

/-- Python `str.lower()` on the ASCII category names, mapped over the
characters of the string. -/
def lower (s : String) : String := ⟨s.data.map Char.toLower⟩

/-- Source: `get_required_steps`,
`self.incident_rules['required_steps'].get(category.lower(), [])`. -/
def get_required_steps (rules : RuleCatalog) (category : String) : List String :=
  (rules.required_steps.lookup (lower category)).getD []

/-- Source: `get_change_approvals`,
`self.change_rules['required_approvals'].get(change_type, [])`. -/
def get_change_approvals (rules : RuleCatalog) (change_type : String) : List String :=
  (rules.required_approvals.lookup change_type).getD []

/-- Source: `is_testing_required`,
`risk_level in self.change_rules['testing_required_risks']`. -/
def testing_required_for (rules : RuleCatalog) (risk_level : String) : Prop :=
  risk_level ∈ rules.testing_required_risks

instance (rules : RuleCatalog) (risk_level : String) :
    Decidable (testing_required_for rules risk_level) := by
  unfold testing_required_for; infer_instance

/-- One incident CSV row, with timestamps in seconds.  `response` and
`resolved` are optional: an empty cell reads as `NaN`. -/
structure Incident where
  id : String
  category : String
  priority : String
  created : ℚ
  response : Option ℚ
  resolved : Option ℚ
  steps_completed : List String
  reassignment_count : ℕ
  knowledge_article_created : String
  customer_satisfaction : String
  manager_email : String
deriving DecidableEq

/-- One change CSV row (`Obtained_Approvals` post-split). -/
structure Change where
  id : String
  category : String
  change_type : String
  risk_level : String
  obtained_approvals : List String
  testing_required : String
  testing_completed : String
  rollback_plan_documented : String
  implemented_during_blackout : String
  post_implementation_review_completed : String
  knowledge_base_updated : String
deriving DecidableEq

/-- One entry of the `deviations` list.  The payload keys that occur in the
source dicts are optional fields, absent (`none`) when the source dict does
not carry them. -/
structure Deviation where
  type : String
  severity : String
  expected : Option ℚ := none
  actual : Option ℚ := none
  deviation_pct : Option ℚ := none
  missing_steps : Option (List String) := none
  completion_rate : Option ℚ := none
  count : Option ℕ := none
  missing : Option (List String) := none
  required : Option (List String) := none
  obtained : Option (List String) := none
deriving DecidableEq

/-- The per-ticket result dict (`id`, `deviations`, `deviation_count`,
`compliance_status`). -/
structure EvalResult where
  id : String
  deviations : List Deviation
  deviation_count : ℕ
  compliance_status : String
deriving DecidableEq

/-- Source block 1 of `DeviationAnalysisAgent.analyze_incident`
(`run_itsm_analysis.py` lines 150-157): response-SLA check.  A missing
`Response_Date` makes `response_hours` `NaN` and the comparison false. -/
def response_check (sla : SlaEntry) (inc : Incident) : List Deviation :=
  match inc.response with
  | none => []
  | some t =>
    let response_hours := (t - inc.created) / 3600
    if response_hours > sla.response then
      [{ type := "SLA_RESPONSE_BREACH", severity := "HIGH",
         expected := some sla.response, actual := some (round2 response_hours),
         deviation_pct := some (round1 ((response_hours - sla.response) / sla.response * 100)) }]
    else []

/-- Source block (`run_itsm_analysis.py` lines 159-166, identically
`run_itsm_main_agent.py` lines 153-162): resolution-SLA check. -/
def resolution_check (sla : SlaEntry) (inc : Incident) : List Deviation :=
  match inc.resolved with
  | none => []
  | some t =>
    let resolution_hours := (t - inc.created) / 3600
    if resolution_hours > sla.resolution then
      [{ type := "SLA_RESOLUTION_BREACH",
         severity := if inc.priority ∈ ["Critical", "High"] then "CRITICAL" else "MEDIUM",
         expected := some sla.resolution, actual := some (round2 resolution_hours),
         deviation_pct := some (round1 ((resolution_hours - sla.resolution) / sla.resolution * 100)) }]
    else []

/-- Source (`run_itsm_analysis.py` lines 169-171):
`missing_steps = [s for s in required_steps if s not in completed_steps]`,
a list comprehension that keeps the catalog's declared step order and uses
case-sensitive exact membership. -/
def missing_steps_of (rules : RuleCatalog) (inc : Incident) : List String :=
  (get_required_steps rules inc.category).filter (fun s => decide (s ∉ inc.steps_completed))

/-- Source (`run_itsm_analysis.py` lines 168-179): process-step check. -/
def steps_check (rules : RuleCatalog) (inc : Incident) : List Deviation :=
  if missing_steps_of rules inc = [] then []
  else
    [{ type := "MISSING_PROCESS_STEPS", severity := "HIGH",
       missing_steps := some (missing_steps_of rules inc),
       completion_rate := some (round1 ((inc.steps_completed.length : ℚ) /
         ((get_required_steps rules inc.category).length : ℚ) * 100)) }]

/-- Source (`run_itsm_main_agent.py` lines 164-175): same check without the
`completion_rate` key. -/
def steps_check_ma (rules : RuleCatalog) (inc : Incident) : List Deviation :=
  if missing_steps_of rules inc = [] then []
  else
    [{ type := "MISSING_PROCESS_STEPS", severity := "HIGH",
       missing_steps := some (missing_steps_of rules inc) }]

/-- Source (`run_itsm_analysis.py` lines 181-187, `run_itsm_main_agent.py`
lines 177-184): `if incident['Reassignment_Count'] > 2`.  The bound is the
literal `2`; the catalog records the same value in `max_reassignments`. -/
def reassignment_check (inc : Incident) : List Deviation :=
  if inc.reassignment_count > 2 then
    [{ type := "EXCESSIVE_REASSIGNMENTS", severity := "MEDIUM",
       count := some inc.reassignment_count }]
  else []

/-- Source (`run_itsm_analysis.py` lines 189-194): knowledge-article check. -/
def kb_check (inc : Incident) : List Deviation :=
  if inc.priority ∈ ["Critical", "High"] ∧ inc.knowledge_article_created = "No" then
    [{ type := "MISSING_KNOWLEDGE_ARTICLE", severity := "MEDIUM" }]
  else []

/-- Source (`run_itsm_analysis.py` lines 196-201): satisfaction check. -/
def satisfaction_check (inc : Incident) : List Deviation :=
  if inc.customer_satisfaction = "Dissatisfied" then
    [{ type := "POOR_CUSTOMER_SATISFACTION", severity := "HIGH" }]
  else []

/-- Builds the result dict shared by both incident evaluators
(`run_itsm_analysis.py` lines 203-215). -/
def mk_result (id : String) (deviations : List Deviation) : EvalResult :=
  { id := id, deviations := deviations, deviation_count := deviations.length,
    compliance_status := if deviations.length > 0 then "NON-COMPLIANT" else "COMPLIANT" }

/-- Source: `DeviationAnalysisAgent.analyze_incident`
(`run_itsm_analysis.py` lines 137-215).  An unknown priority makes
`get_incident_sla` return the empty dict and the first subscript
`sla['response']` raise `KeyError`, modelled as `Except.error`. -/
def analyze_incident (rules : RuleCatalog) (inc : Incident) : Except String EvalResult :=
  match get_incident_sla rules inc.priority with
  | none => Except.error "KeyError"
  | some sla =>
    Except.ok (mk_result inc.id
      (response_check sla inc ++ resolution_check sla inc ++ steps_check rules inc ++
        reassignment_check inc ++ kb_check inc ++ satisfaction_check inc))

/-- Source: `IntelligentAnalysisAgent.analyze_incident`
(`run_itsm_main_agent.py` lines 144-211): the same evaluator without the
response-SLA and satisfaction checks (`sla['resolution']` raises the
`KeyError` for an unknown priority). -/
def analyze_incident_ma (rules : RuleCatalog) (inc : Incident) : Except String EvalResult :=
  match get_incident_sla rules inc.priority with
  | none => Except.error "KeyError"
  | some sla =>
    Except.ok (mk_result inc.id
      (resolution_check sla inc ++ steps_check_ma rules inc ++
        reassignment_check inc ++ kb_check inc))

/-- Source (`run_itsm_main_agent.py` lines 217-219, identically
`run_itsm_analysis.py` lines 222-224):
`missing_approvals = [a for a in required_approvals if a not in obtained_approvals]`. -/
def missing_approvals_of (rules : RuleCatalog) (chg : Change) : List String :=
  (get_change_approvals rules chg.change_type).filter
    (fun a => decide (a ∉ chg.obtained_approvals))

/-- Source: approvals block of `IntelligentAnalysisAgent.analyze_change`
(`run_itsm_main_agent.py` lines 216-227).  The `detail` string renders the
`missing`/`required`/`obtained` lists, which are kept structurally.  The
lookup defaults to `[]`, so the check is total. -/
def approvals_check (rules : RuleCatalog) (chg : Change) : List Deviation :=
  if missing_approvals_of rules chg = [] then []
  else
    [{ type := "MISSING_APPROVALS", severity := "CRITICAL",
       missing := some (missing_approvals_of rules chg),
       required := some (get_change_approvals rules chg.change_type),
       obtained := some chg.obtained_approvals }]

/-- Source (`run_itsm_main_agent.py` lines 229-236): testing check. -/
def testing_check (rules : RuleCatalog) (chg : Change) : List Deviation :=
  if testing_required_for rules chg.risk_level ∧ chg.testing_required = "Yes" ∧
      chg.testing_completed = "No" then
    [{ type := "MISSING_TESTING_EVIDENCE", severity := "HIGH" }]
  else []

/-- Source (`run_itsm_main_agent.py` lines 238-244): rollback-plan check. -/
def rollback_check (chg : Change) : List Deviation :=
  if chg.rollback_plan_documented = "No" then
    [{ type := "MISSING_ROLLBACK_PLAN", severity := "HIGH" }]
  else []

/-- Source (`run_itsm_main_agent.py` lines 246-252): blackout-window check. -/
def blackout_check (chg : Change) : List Deviation :=
  if chg.implemented_during_blackout = "Yes" then
    [{ type := "BLACKOUT_WINDOW_VIOLATION", severity := "CRITICAL" }]
  else []

/-- Source (`run_itsm_main_agent.py` lines 254-260): post-implementation
review check. -/
def pir_check (chg : Change) : List Deviation :=
  if chg.post_implementation_review_completed = "No" then
    [{ type := "MISSING_PIR", severity := "MEDIUM" }]
  else []

/-- Source (`run_itsm_main_agent.py` lines 262-268): knowledge-base update
check. -/
def kb_update_check (chg : Change) : List Deviation :=
  if chg.knowledge_base_updated = "No" then
    [{ type := "KB_NOT_UPDATED", severity := "MEDIUM" }]
  else []

/-- Composition of the six change checks into the result dict
(`run_itsm_main_agent.py` lines 270-282). -/
def analyze_change (rules : RuleCatalog) (chg : Change) : EvalResult :=
  mk_result chg.id
    (approvals_check rules chg ++ testing_check rules chg ++ rollback_check chg ++
      blackout_check chg ++ pir_check chg ++ kb_update_check chg)

/-- One row of the `at_risk` list built by `predict_sla_breaches`
(`run_itsm_main_agent.py` lines 310-327); the resolved/`BREACHED` entry
carries no `hours_remaining` key.  The deadline is kept as a timestamp
(the source stores its rendering). -/
structure RiskEntry where
  id : String
  priority : String
  manager_email : String
  status : String
  hours_remaining : Option ℚ
  deadline : ℚ
deriving DecidableEq

/-- Loop body of `IntelligentAnalysisAgent.predict_sla_breaches`
(`run_itsm_main_agent.py` lines 303-327) for one incident, given its SLA
row: `sla_deadline = created + timedelta(hours=sla['resolution'])`.
The branch `if incident.get('Resolved_Date'):` is taken for a present cell
and for a missing one alike: a blank CSV cell reads as the float `NaN`,
which is truthy in Python.  With a real timestamp the record is `BREACHED`
when `resolved > sla_deadline`; with a missing cell `pd.to_datetime(NaN)`
is `NaT`, the comparison `NaT > sla_deadline` is `False`, and no entry is
appended.  The `else` arm of the source (lines 317-327), which would mark
an unresolved record `AT_RISK` when under 2 hours remain, is therefore
unreachable for the missing-cell representation the pipeline feeds it
(the current time `_now` is unused for the same reason). -/
def risk_status_of (sla : SlaEntry) (_now : ℚ) (inc : Incident) : Option RiskEntry :=
  let sla_deadline := inc.created + sla.resolution * 3600
  match inc.resolved with
  | some resolved =>
    if resolved > sla_deadline then
      some { id := inc.id, priority := inc.priority, manager_email := inc.manager_email,
             status := "BREACHED", hours_remaining := none, deadline := sla_deadline }
    else none
  | none => none

/-- Source: `IntelligentAnalysisAgent.predict_sla_breaches`
(`run_itsm_main_agent.py` lines 298-329).  The loop accumulates one
optional entry per incident; `sla['resolution']` raises `KeyError` for a
priority without an SLA row, aborting the scan. -/
def predict_sla_breaches (rules : RuleCatalog) (now : ℚ) :
    List Incident → Except String (List RiskEntry)
  | [] => Except.ok []
  | inc :: rest =>
    match get_incident_sla rules inc.priority with
    | none => Except.error "KeyError"
    | some sla =>
      match predict_sla_breaches rules now rest with
      | Except.error e => Except.error e
      | Except.ok out => Except.ok ((risk_status_of sla now inc).toList ++ out)

/-- Source: the incident loop of `main` (`run_itsm_analysis.py` lines
500-509): `for _, incident in incidents_df.iterrows(): result =
analysis_agent.analyze_incident(incident); incident_results.append(result)`.
There is no `try`/`except` around the call, so an exception raised for one
record propagates and aborts the whole batch. -/
def run_incident_batch (rules : RuleCatalog) : List Incident → Except String (List EvalResult)
  | [] => Except.ok []
  | inc :: rest =>
    match analyze_incident rules inc with
    | Except.error e => Except.error e
    | Except.ok r =>
      match run_incident_batch rules rest with
      | Except.error e => Except.error e
      | Except.ok rs => Except.ok (r :: rs)

/-- The concrete catalog the scripts construct
(`_parse_incident_rules` / `_parse_change_rules` in both files; the step
lists are the table hard-coded in `run_itsm_main_agent.py` lines 96-109). -/
def default_rules : RuleCatalog :=
  { sla := [("Critical", ⟨1/4, 4⟩), ("High", ⟨1, 12⟩), ("Medium", ⟨4, 48⟩), ("Low", ⟨8, 96⟩)],
    required_steps :=
      [("network", ["Initial Assessment", "Network Diagnostics", "Root Cause Analysis",
        "Solution Implementation", "Testing", "Documentation", "Closure"]),
       ("application", ["Initial Assessment", "Code Review", "Bug Identification",
        "Fix Implementation", "Testing", "Deployment", "User Validation", "Closure"]),
       ("hardware", ["Initial Assessment", "Hardware Diagnostics", "Component Testing",
        "Replacement/Repair", "System Testing", "Documentation", "Closure"]),
       ("security", ["Initial Assessment", "Security Scan", "Threat Analysis",
        "Patch Implementation", "Security Testing", "Compliance Verification",
        "Documentation", "Closure"]),
       ("database", ["Initial Assessment", "Query Analysis", "Performance Check",
        "Backup Verification", "Fix Implementation", "Data Validation",
        "Documentation", "Closure"])],
    required_approvals :=
      [("Standard", ["Pre-Approved"]), ("Normal", ["Manager", "CAB"]),
       ("Emergency", ["IT Director", "ECAB"])],
    max_reassignments := 2,
    kb_required_priorities := ["Critical", "High"],
    testing_required_risks := ["Critical", "High"] }

/-- Violations of a given type among a deviation list (the shape every
claim about one check is stated through). -/
def violations_of (t : String) (l : List Deviation) : List Deviation :=
  l.filter (fun d => decide (d.type = t))

/-! Helper lemmas about `violations_of` and the individual checks. -/

theorem violations_of_append (t : String) (l l' : List Deviation) :
    violations_of t (l ++ l') = violations_of t l ++ violations_of t l' :=
  List.filter_append _ _

theorem violations_of_eq_nil {t : String} {l : List Deviation}
    (h : ∀ d ∈ l, d.type ≠ t) : violations_of t l = [] := by
  simp only [violations_of, List.filter_eq_nil_iff, decide_eq_true_eq]
  exact h

theorem violations_of_eq_self {t : String} {l : List Deviation}
    (h : ∀ d ∈ l, d.type = t) : violations_of t l = l := by
  rw [violations_of, List.filter_eq_self]
  intro a ha
  simpa using h a ha

theorem mem_response_check {sla : SlaEntry} {inc : Incident} {d : Deviation}
    (h : d ∈ response_check sla inc) : d.type = "SLA_RESPONSE_BREACH" := by
  simp only [response_check] at h
  split at h
  · simp at h
  · split at h <;> simp_all

theorem mem_resolution_check {sla : SlaEntry} {inc : Incident} {d : Deviation}
    (h : d ∈ resolution_check sla inc) : d.type = "SLA_RESOLUTION_BREACH" := by
  simp only [resolution_check] at h
  split at h
  · simp at h
  · split at h <;> simp_all

theorem mem_steps_check {rules : RuleCatalog} {inc : Incident} {d : Deviation}
    (h : d ∈ steps_check rules inc) : d.type = "MISSING_PROCESS_STEPS" := by
  simp only [steps_check] at h
  split at h <;> simp_all

theorem mem_steps_check_ma {rules : RuleCatalog} {inc : Incident} {d : Deviation}
    (h : d ∈ steps_check_ma rules inc) : d.type = "MISSING_PROCESS_STEPS" := by
  simp only [steps_check_ma] at h
  split at h <;> simp_all

theorem mem_reassignment_check {inc : Incident} {d : Deviation}
    (h : d ∈ reassignment_check inc) : d.type = "EXCESSIVE_REASSIGNMENTS" := by
  simp only [reassignment_check] at h
  split at h <;> simp_all

theorem mem_kb_check {inc : Incident} {d : Deviation}
    (h : d ∈ kb_check inc) : d.type = "MISSING_KNOWLEDGE_ARTICLE" := by
  simp only [kb_check] at h
  split at h <;> simp_all

theorem mem_satisfaction_check {inc : Incident} {d : Deviation}
    (h : d ∈ satisfaction_check inc) : d.type = "POOR_CUSTOMER_SATISFACTION" := by
  simp only [satisfaction_check] at h
  split at h <;> simp_all

theorem analyze_incident_ok {rules : RuleCatalog} {inc : Incident} {sla : SlaEntry}
    (hs : get_incident_sla rules inc.priority = some sla) :
    analyze_incident rules inc = Except.ok (mk_result inc.id
      (response_check sla inc ++ resolution_check sla inc ++ steps_check rules inc ++
        reassignment_check inc ++ kb_check inc ++ satisfaction_check inc)) := by
  unfold analyze_incident
  rw [hs]

theorem analyze_incident_ma_ok {rules : RuleCatalog} {inc : Incident} {sla : SlaEntry}
    (hs : get_incident_sla rules inc.priority = some sla) :
    analyze_incident_ma rules inc = Except.ok (mk_result inc.id
      (resolution_check sla inc ++ steps_check_ma rules inc ++
        reassignment_check inc ++ kb_check inc)) := by
  unfold analyze_incident_ma
  rw [hs]

theorem violations_of_incident {rules : RuleCatalog} {inc : Incident} {sla : SlaEntry}
    (hs : get_incident_sla rules inc.priority = some sla) (t : String) :
    ∃ res, analyze_incident rules inc = Except.ok res ∧
      res.deviations =
        response_check sla inc ++ resolution_check sla inc ++ steps_check rules inc ++
          reassignment_check inc ++ kb_check inc ++ satisfaction_check inc ∧
      violations_of t res.deviations =
        violations_of t (response_check sla inc) ++ violations_of t (resolution_check sla inc) ++
          violations_of t (steps_check rules inc) ++ violations_of t (reassignment_check inc) ++
          violations_of t (kb_check inc) ++ violations_of t (satisfaction_check inc) := by
  refine ⟨_, analyze_incident_ok hs, rfl, ?_⟩
  simp only [mk_result, violations_of_append]

/-- C1: for an incident with a resolved timestamp and an SLA row for its
priority, the evaluator emits exactly one `SLA_RESOLUTION_BREACH` iff the
resolution hours exceed the target; its severity is `CRITICAL` for
Critical/High priorities and `MEDIUM` otherwise, and it carries the
expected hours, the rounded actual hours, and the percentage overage
`(actual-expected)/expected*100` rounded to one decimal. -/
theorem incident_sla_resolution_spec (rules : RuleCatalog) (inc : Incident)
    (sla : SlaEntry) (t : ℚ)
    (hs : get_incident_sla rules inc.priority = some sla)
    (hr : inc.resolved = some t) :
    ∃ res, analyze_incident rules inc = Except.ok res ∧
      violations_of "SLA_RESOLUTION_BREACH" res.deviations =
        (if (t - inc.created) / 3600 > sla.resolution then
          [{ type := "SLA_RESOLUTION_BREACH",
             severity := if inc.priority ∈ ["Critical", "High"] then "CRITICAL" else "MEDIUM",
             expected := some sla.resolution,
             actual := some (round2 ((t - inc.created) / 3600)),
             deviation_pct :=
               some (round1 (((t - inc.created) / 3600 - sla.resolution) / sla.resolution * 100)) }]
        else []) := by
  obtain ⟨res, hok, _, hvio⟩ := violations_of_incident hs "SLA_RESOLUTION_BREACH"
  refine ⟨res, hok, ?_⟩
  rw [hvio]
  rw [violations_of_eq_nil (l := response_check sla inc)
      (fun d hd => by rw [mem_response_check hd]; decide),
    violations_of_eq_nil (l := steps_check rules inc)
      (fun d hd => by rw [mem_steps_check hd]; decide),
    violations_of_eq_nil (l := reassignment_check inc)
      (fun d hd => by rw [mem_reassignment_check hd]; decide),
    violations_of_eq_nil (l := kb_check inc)
      (fun d hd => by rw [mem_kb_check hd]; decide),
    violations_of_eq_nil (l := satisfaction_check inc)
      (fun d hd => by rw [mem_satisfaction_check hd]; decide),
    violations_of_eq_self (fun d hd => mem_resolution_check hd)]
  simp only [List.append_nil, List.nil_append]
  rw [resolution_check, hr]

/-- Scenario A of the spec: a Critical incident created at time 0 and
resolved 6 hours later against the default 4-hour target yields exactly
one resolution breach with severity `CRITICAL` and `deviation_pct = 50`. -/
def scenario_a : Incident :=
  { id := "INC-A", category := "network", priority := "Critical", created := 0,
    response := none, resolved := some 21600,
    steps_completed := ["Initial Assessment", "Network Diagnostics", "Root Cause Analysis",
      "Solution Implementation", "Testing", "Documentation", "Closure"],
    reassignment_count := 0, knowledge_article_created := "Yes",
    customer_satisfaction := "Satisfied", manager_email := "manager@example.com" }

theorem incident_sla_resolution_spec_witness :
    get_incident_sla default_rules scenario_a.priority = some ⟨1/4, 4⟩ ∧
    scenario_a.resolved = some 21600 ∧
    ∃ res, analyze_incident default_rules scenario_a = Except.ok res ∧
      violations_of "SLA_RESOLUTION_BREACH" res.deviations =
        [{ type := "SLA_RESOLUTION_BREACH", severity := "CRITICAL",
           expected := some 4, actual := some 6, deviation_pct := some 50 }] := by
  refine ⟨rfl, rfl, ?_⟩
  obtain ⟨res, h1, h2⟩ :=
    incident_sla_resolution_spec default_rules scenario_a ⟨1/4, 4⟩ 21600 rfl rfl
  refine ⟨res, h1, ?_⟩
  rw [h2]
  norm_num [scenario_a, round1, round2, round_eq, Deviation.mk.injEq]

theorem mem_approvals_check {rules : RuleCatalog} {chg : Change} {d : Deviation}
    (h : d ∈ approvals_check rules chg) : d.type = "MISSING_APPROVALS" := by
  simp only [approvals_check] at h
  split at h <;> simp_all

theorem mem_testing_check {rules : RuleCatalog} {chg : Change} {d : Deviation}
    (h : d ∈ testing_check rules chg) : d.type = "MISSING_TESTING_EVIDENCE" := by
  simp only [testing_check] at h
  split at h <;> simp_all

theorem mem_rollback_check {chg : Change} {d : Deviation}
    (h : d ∈ rollback_check chg) : d.type = "MISSING_ROLLBACK_PLAN" := by
  simp only [rollback_check] at h
  split at h <;> simp_all

theorem mem_blackout_check {chg : Change} {d : Deviation}
    (h : d ∈ blackout_check chg) : d.type = "BLACKOUT_WINDOW_VIOLATION" := by
  simp only [blackout_check] at h
  split at h <;> simp_all

theorem mem_pir_check {chg : Change} {d : Deviation}
    (h : d ∈ pir_check chg) : d.type = "MISSING_PIR" := by
  simp only [pir_check] at h
  split at h <;> simp_all

theorem mem_kb_update_check {chg : Change} {d : Deviation}
    (h : d ∈ kb_update_check chg) : d.type = "KB_NOT_UPDATED" := by
  simp only [kb_update_check] at h
  split at h <;> simp_all

theorem change_approvals_violations (rules : RuleCatalog) (chg : Change) :
    violations_of "MISSING_APPROVALS" (analyze_change rules chg).deviations =
      approvals_check rules chg := by
  show violations_of "MISSING_APPROVALS"
    (approvals_check rules chg ++ testing_check rules chg ++ rollback_check chg ++
      blackout_check chg ++ pir_check chg ++ kb_update_check chg) = _
  rw [violations_of_append, violations_of_append, violations_of_append,
    violations_of_append, violations_of_append,
    violations_of_eq_self (fun d hd => mem_approvals_check hd),
    violations_of_eq_nil (l := testing_check rules chg)
      (fun d hd => by rw [mem_testing_check hd]; decide),
    violations_of_eq_nil (l := rollback_check chg)
      (fun d hd => by rw [mem_rollback_check hd]; decide),
    violations_of_eq_nil (l := blackout_check chg)
      (fun d hd => by rw [mem_blackout_check hd]; decide),
    violations_of_eq_nil (l := pir_check chg)
      (fun d hd => by rw [mem_pir_check hd]; decide),
    violations_of_eq_nil (l := kb_update_check chg)
      (fun d hd => by rw [mem_kb_update_check hd]; decide)]
  simp only [List.append_nil]

/-- C2: for every incident record (with an SLA row for its priority, so the
evaluation completes), a `MISSING_PROCESS_STEPS` violation of severity
`HIGH` is emitted iff the list of required steps for the category not
found among the completed steps is non-empty; membership is exact
case-sensitive string equality, and the reported missing list is a
sublist of the catalog's declared step sequence, hence in declared order. -/
theorem incident_missing_steps_spec (rules : RuleCatalog) (inc : Incident) (sla : SlaEntry)
    (hs : get_incident_sla rules inc.priority = some sla) :
    ∃ res, analyze_incident rules inc = Except.ok res ∧
      violations_of "MISSING_PROCESS_STEPS" res.deviations =
        (if missing_steps_of rules inc = [] then []
         else
          [{ type := "MISSING_PROCESS_STEPS", severity := "HIGH",
             missing_steps := some (missing_steps_of rules inc),
             completion_rate := some (round1 ((inc.steps_completed.length : ℚ) /
               ((get_required_steps rules inc.category).length : ℚ) * 100)) }]) ∧
      (missing_steps_of rules inc).Sublist (get_required_steps rules inc.category) ∧
      ∀ s, s ∈ missing_steps_of rules inc ↔
        (s ∈ get_required_steps rules inc.category ∧ s ∉ inc.steps_completed) := by
  obtain ⟨res, hok, _, hvio⟩ := violations_of_incident hs "MISSING_PROCESS_STEPS"
  refine ⟨res, hok, ?_, List.filter_sublist _, ?_⟩
  · rw [hvio]
    rw [violations_of_eq_nil (l := response_check sla inc)
        (fun d hd => by rw [mem_response_check hd]; decide),
      violations_of_eq_nil (l := resolution_check sla inc)
        (fun d hd => by rw [mem_resolution_check hd]; decide),
      violations_of_eq_nil (l := reassignment_check inc)
        (fun d hd => by rw [mem_reassignment_check hd]; decide),
      violations_of_eq_nil (l := kb_check inc)
        (fun d hd => by rw [mem_kb_check hd]; decide),
      violations_of_eq_nil (l := satisfaction_check inc)
        (fun d hd => by rw [mem_satisfaction_check hd]; decide),
      violations_of_eq_self (fun d hd => mem_steps_check hd)]
    simp only [List.append_nil, List.nil_append]
    rw [steps_check]
  · intro s
    simp [missing_steps_of, List.mem_filter]

/-- Scenario B of the spec: required steps `[A, B, C, D]` with completed
steps `[A, C]` yield `missing = [B, D]`, in the declared catalog order. -/
def rules_b : RuleCatalog :=
  { sla := [("Critical", ⟨1/4, 4⟩)],
    required_steps := [("network", ["A", "B", "C", "D"])],
    required_approvals := [], max_reassignments := 2,
    kb_required_priorities := ["Critical", "High"], testing_required_risks := [] }

def inc_b : Incident :=
  { id := "INC-B", category := "Network", priority := "Critical", created := 0,
    response := none, resolved := none, steps_completed := ["A", "C"],
    reassignment_count := 0, knowledge_article_created := "Yes",
    customer_satisfaction := "Satisfied", manager_email := "manager@example.com" }

theorem incident_missing_steps_spec_witness :
    get_incident_sla rules_b inc_b.priority = some ⟨1/4, 4⟩ ∧
    missing_steps_of rules_b inc_b = ["B", "D"] ∧
    ∃ res, analyze_incident rules_b inc_b = Except.ok res ∧
      violations_of "MISSING_PROCESS_STEPS" res.deviations =
        [{ type := "MISSING_PROCESS_STEPS", severity := "HIGH",
           missing_steps := some ["B", "D"], completion_rate := some 50 }] := by
  obtain ⟨res, hok, hvio, hsub, hmem⟩ := incident_missing_steps_spec rules_b inc_b ⟨1/4, 4⟩ rfl
  have hmiss : missing_steps_of rules_b inc_b = ["B", "D"] := by decide
  have hreq : get_required_steps rules_b inc_b.category = ["A", "B", "C", "D"] := by decide
  refine ⟨rfl, hmiss, res, hok, ?_⟩
  rw [hvio, hmiss, hreq, if_neg (by simp)]
  norm_num [inc_b, round1, round_eq, Deviation.mk.injEq]

/-- C3: for every change record whose change type has a required-approvals
entry in the catalog, `analyze_change` emits a `MISSING_APPROVALS`
violation iff some required role is absent from the obtained approvals;
the violation has severity `CRITICAL` and carries the missing role names
together with the full required and obtained lists. -/
theorem change_missing_approvals_spec (rules : RuleCatalog) (chg : Change)
    (req : List String)
    (h : rules.required_approvals.lookup chg.change_type = some req) :
    missing_approvals_of rules chg =
      req.filter (fun a => decide (a ∉ chg.obtained_approvals)) ∧
    violations_of "MISSING_APPROVALS" (analyze_change rules chg).deviations =
      (if missing_approvals_of rules chg = [] then []
       else
        [{ type := "MISSING_APPROVALS", severity := "CRITICAL",
           missing := some (missing_approvals_of rules chg),
           required := some req, obtained := some chg.obtained_approvals }]) := by
  have hga : get_change_approvals rules chg.change_type = req := by
    rw [get_change_approvals, h]
    rfl
  constructor
  · rw [missing_approvals_of, hga]
  · rw [change_approvals_violations, approvals_check, hga]

/-- Scenario C of the spec: a Normal change obtained only the Manager
approval, so `missing = [CAB]` with severity `CRITICAL`. -/
def chg_c : Change :=
  { id := "CHG-C", category := "Software", change_type := "Normal", risk_level := "Low",
    obtained_approvals := ["Manager"], testing_required := "No", testing_completed := "No",
    rollback_plan_documented := "Yes", implemented_during_blackout := "No",
    post_implementation_review_completed := "Yes", knowledge_base_updated := "Yes" }

theorem change_missing_approvals_spec_witness :
    default_rules.required_approvals.lookup chg_c.change_type = some ["Manager", "CAB"] ∧
    missing_approvals_of default_rules chg_c = ["CAB"] ∧
    violations_of "MISSING_APPROVALS" (analyze_change default_rules chg_c).deviations =
      [{ type := "MISSING_APPROVALS", severity := "CRITICAL", missing := some ["CAB"],
         required := some ["Manager", "CAB"], obtained := some ["Manager"] }] := by
  obtain ⟨h1, h2⟩ := change_missing_approvals_spec default_rules chg_c ["Manager", "CAB"] rfl
  refine ⟨rfl, by decide, ?_⟩
  rw [h2]
  decide

/-- C4: for every incident record (with an SLA row) evaluated against a
catalog whose `max_reassignments` is the recorded value 2, exactly one
`EXCESSIVE_REASSIGNMENTS` violation of severity `MEDIUM` is emitted iff
`reassignment_count` is strictly greater than `max_reassignments`. -/
theorem excessive_reassignments_spec (rules : RuleCatalog) (inc : Incident) (sla : SlaEntry)
    (hs : get_incident_sla rules inc.priority = some sla)
    (hmax : rules.max_reassignments = 2) :
    ∃ res, analyze_incident rules inc = Except.ok res ∧
      violations_of "EXCESSIVE_REASSIGNMENTS" res.deviations =
        (if inc.reassignment_count > rules.max_reassignments then
          [{ type := "EXCESSIVE_REASSIGNMENTS", severity := "MEDIUM",
             count := some inc.reassignment_count }]
         else []) := by
  obtain ⟨res, hok, _, hvio⟩ := violations_of_incident hs "EXCESSIVE_REASSIGNMENTS"
  refine ⟨res, hok, ?_⟩
  rw [hvio]
  rw [violations_of_eq_nil (l := response_check sla inc)
      (fun d hd => by rw [mem_response_check hd]; decide),
    violations_of_eq_nil (l := resolution_check sla inc)
      (fun d hd => by rw [mem_resolution_check hd]; decide),
    violations_of_eq_nil (l := steps_check rules inc)
      (fun d hd => by rw [mem_steps_check hd]; decide),
    violations_of_eq_nil (l := kb_check inc)
      (fun d hd => by rw [mem_kb_check hd]; decide),
    violations_of_eq_nil (l := satisfaction_check inc)
      (fun d hd => by rw [mem_satisfaction_check hd]; decide),
    violations_of_eq_self (fun d hd => mem_reassignment_check hd)]
  simp only [List.append_nil, List.nil_append]
  rw [reassignment_check, hmax]

/-- Scenario D of the spec: three reassignments against the limit of two
trigger exactly one violation; exactly two reassignments trigger none. -/
def inc_d3 : Incident :=
  { id := "INC-D3", category := "network", priority := "Low", created := 0,
    response := none, resolved := none,
    steps_completed := ["Initial Assessment", "Network Diagnostics", "Root Cause Analysis",
      "Solution Implementation", "Testing", "Documentation", "Closure"],
    reassignment_count := 3, knowledge_article_created := "Yes",
    customer_satisfaction := "Satisfied", manager_email := "manager@example.com" }

def inc_d2 : Incident :=
  { id := "INC-D2", category := "network", priority := "Low", created := 0,
    response := none, resolved := none,
    steps_completed := ["Initial Assessment", "Network Diagnostics", "Root Cause Analysis",
      "Solution Implementation", "Testing", "Documentation", "Closure"],
    reassignment_count := 2, knowledge_article_created := "Yes",
    customer_satisfaction := "Satisfied", manager_email := "manager@example.com" }

theorem excessive_reassignments_spec_witness :
    get_incident_sla default_rules inc_d3.priority = some ⟨8, 96⟩ ∧
    default_rules.max_reassignments = 2 ∧
    (∃ res, analyze_incident default_rules inc_d3 = Except.ok res ∧
      violations_of "EXCESSIVE_REASSIGNMENTS" res.deviations =
        [{ type := "EXCESSIVE_REASSIGNMENTS", severity := "MEDIUM", count := some 3 }]) ∧
    (∃ res, analyze_incident default_rules inc_d2 = Except.ok res ∧
      violations_of "EXCESSIVE_REASSIGNMENTS" res.deviations = []) := by
  obtain ⟨r3, hok3, hv3⟩ := excessive_reassignments_spec default_rules inc_d3 ⟨8, 96⟩ rfl rfl
  obtain ⟨r2, hok2, hv2⟩ := excessive_reassignments_spec default_rules inc_d2 ⟨8, 96⟩ rfl rfl
  refine ⟨rfl, rfl, ⟨r3, hok3, ?_⟩, ⟨r2, hok2, ?_⟩⟩
  · rw [hv3]
    decide
  · rw [hv2]
    decide

/-- Unresolved High incident at evaluation time 40000 s: about 0.9 hours
remain to its 12-hour (43200 s) deadline, squarely inside the 2-hour risk
window. -/
def inc_open : Incident :=
  { id := "INC-OPEN", category := "network", priority := "High", created := 0,
    response := none, resolved := none, steps_completed := [],
    reassignment_count := 0, knowledge_article_created := "Yes",
    customer_satisfaction := "Satisfied", manager_email := "manager@example.com" }

/-- C5: evaluation of the predictor at the failing input.  The claimed
marking rule says this unresolved record, with an SLA row and under 2
hours from its deadline, is reported `AT_RISK` with its remaining hours;
the code instead appends no entry for it: the blank `Resolved_Date` cell
is the truthy `NaN`, so the resolved arm is taken and `NaT > deadline` is
`False`.  The `AT_RISK` arm the spec describes (and the console and email
rendering written for it) is dead code for the CSV data the pipeline
feeds itself. -/
theorem predict_open_incident_no_entry :
    get_incident_sla default_rules inc_open.priority = some ⟨1, 12⟩ ∧
    inc_open.resolved = none ∧
    (inc_open.created + (⟨1, 12⟩ : SlaEntry).resolution * 3600 - 40000) / 3600 < 2 ∧
    predict_sla_breaches default_rules 40000 [inc_open] = Except.ok [] :=
  ⟨rfl, rfl, by norm_num [inc_open], rfl⟩

/-- Open Critical incident three hours after creation: one hour remains to
the 4-hour deadline, within the 2-hour risk window. -/
def inc_e : Incident :=
  { id := "INC-E", category := "network", priority := "Critical", created := 0,
    response := none, resolved := none,
    steps_completed := ["Initial Assessment", "Network Diagnostics", "Root Cause Analysis",
      "Solution Implementation", "Testing", "Documentation", "Closure"],
    reassignment_count := 0, knowledge_article_created := "Yes",
    customer_satisfaction := "Satisfied", manager_email := "manager@example.com" }

/-- C7 counterexample: the open ticket of the claim, one hour from its
deadline and hence inside the 2-hour risk window, never appears in the
predictor output — the truthy `NaN` check routes it to the resolved arm,
which appends nothing for it. -/
theorem open_incident_not_in_predictor_cex :
    inc_e.resolved = none ∧
    (inc_e.created + (⟨1/4, 4⟩ : SlaEntry).resolution * 3600 - 10800) / 3600 < 2 ∧
    predict_sla_breaches default_rules 10800 [inc_e] = Except.ok [] :=
  ⟨rfl, by norm_num [inc_e], rfl⟩

/-- C7 (amended): an incident with no `resolved_at` is representable and
evaluates normally, emitting zero SLA-breach violations; but the open
ticket also never appears in the predictor output, whatever the
evaluation time — the source's truthy `NaN` check sends the record down
the resolved arm, which appends no entry. -/
theorem open_incident_no_sla_breach_spec (rules : RuleCatalog) (inc : Incident)
    (sla : SlaEntry) (now : ℚ)
    (hs : get_incident_sla rules inc.priority = some sla)
    (hr : inc.resolved = none) :
    ∃ res, analyze_incident_ma rules inc = Except.ok res ∧
      violations_of "SLA_RESOLUTION_BREACH" res.deviations = [] ∧
      violations_of "SLA_RESPONSE_BREACH" res.deviations = [] ∧
      predict_sla_breaches rules now [inc] = Except.ok [] := by
  have hres : resolution_check sla inc = [] := by
    rw [resolution_check, hr]
  have hnone : risk_status_of sla now inc = none := by
    simp only [risk_status_of, hr]
  refine ⟨_, analyze_incident_ma_ok hs, ?_, ?_, ?_⟩
  · simp only [mk_result, violations_of_append]
    rw [hres]
    rw [violations_of_eq_nil (l := steps_check_ma rules inc)
        (fun d hd => by rw [mem_steps_check_ma hd]; decide),
      violations_of_eq_nil (l := reassignment_check inc)
        (fun d hd => by rw [mem_reassignment_check hd]; decide),
      violations_of_eq_nil (l := kb_check inc)
        (fun d hd => by rw [mem_kb_check hd]; decide)]
    rfl
  · simp only [mk_result, violations_of_append]
    rw [hres]
    rw [violations_of_eq_nil (l := steps_check_ma rules inc)
        (fun d hd => by rw [mem_steps_check_ma hd]; decide),
      violations_of_eq_nil (l := reassignment_check inc)
        (fun d hd => by rw [mem_reassignment_check hd]; decide),
      violations_of_eq_nil (l := kb_check inc)
        (fun d hd => by rw [mem_kb_check hd]; decide)]
    rfl
  · simp only [predict_sla_breaches]
    rw [hs]
    show Except.ok ((risk_status_of sla now inc).toList ++ []) = _
    rw [hnone]
    rfl

theorem open_incident_no_sla_breach_spec_witness :
    get_incident_sla default_rules inc_e.priority = some ⟨1/4, 4⟩ ∧
    inc_e.resolved = none ∧
    (∃ res, analyze_incident_ma default_rules inc_e = Except.ok res ∧
      violations_of "SLA_RESOLUTION_BREACH" res.deviations = [] ∧
      violations_of "SLA_RESPONSE_BREACH" res.deviations = [] ∧
      predict_sla_breaches default_rules 10800 [inc_e] = Except.ok []) :=
  ⟨rfl, rfl, open_incident_no_sla_breach_spec default_rules inc_e ⟨1/4, 4⟩ 10800 rfl rfl⟩

/-- C9: an incident whose category has no entry in the required-steps
table gets the silent empty default, so the evaluator never emits a
`MISSING_PROCESS_STEPS` violation for it. -/
theorem unknown_category_no_steps_spec (rules : RuleCatalog) (inc : Incident) (sla : SlaEntry)
    (hs : get_incident_sla rules inc.priority = some sla)
    (hcat : rules.required_steps.lookup (lower inc.category) = none) :
    get_required_steps rules inc.category = [] ∧
    ∃ res, analyze_incident rules inc = Except.ok res ∧
      violations_of "MISSING_PROCESS_STEPS" res.deviations = [] := by
  have hreq : get_required_steps rules inc.category = [] := by
    rw [get_required_steps, hcat]
    rfl
  have hmiss : missing_steps_of rules inc = [] := by
    rw [missing_steps_of, hreq]
    rfl
  have hsteps : steps_check rules inc = [] := by
    rw [steps_check, if_pos hmiss]
  obtain ⟨res, hok, _, hvio⟩ := violations_of_incident hs "MISSING_PROCESS_STEPS"
  refine ⟨hreq, res, hok, ?_⟩
  rw [hvio, hsteps]
  rw [violations_of_eq_nil (l := response_check sla inc)
      (fun d hd => by rw [mem_response_check hd]; decide),
    violations_of_eq_nil (l := resolution_check sla inc)
      (fun d hd => by rw [mem_resolution_check hd]; decide),
    violations_of_eq_nil (l := reassignment_check inc)
      (fun d hd => by rw [mem_reassignment_check hd]; decide),
    violations_of_eq_nil (l := kb_check inc)
      (fun d hd => by rw [mem_kb_check hd]; decide),
    violations_of_eq_nil (l := satisfaction_check inc)
      (fun d hd => by rw [mem_satisfaction_check hd]; decide)]
  rfl

/-- Incident in a category (`Printers`) absent from the required-steps
table. -/
def inc_u : Incident :=
  { id := "INC-U", category := "Printers", priority := "Medium", created := 0,
    response := none, resolved := none, steps_completed := [],
    reassignment_count := 0, knowledge_article_created := "No",
    customer_satisfaction := "Satisfied", manager_email := "manager@example.com" }

theorem unknown_category_no_steps_spec_witness :
    get_incident_sla default_rules inc_u.priority = some ⟨4, 48⟩ ∧
    default_rules.required_steps.lookup (lower inc_u.category) = none ∧
    (get_required_steps default_rules inc_u.category = [] ∧
      ∃ res, analyze_incident default_rules inc_u = Except.ok res ∧
        violations_of "MISSING_PROCESS_STEPS" res.deviations = []) :=
  ⟨rfl, by decide, unknown_category_no_steps_spec default_rules inc_u ⟨4, 48⟩ rfl (by decide)⟩

/-- Open Critical incident one hour past its 4-hour deadline, next to a
resolved one that breached the same deadline. -/
def inc_x : Incident :=
  { id := "INC-X", category := "network", priority := "Critical", created := 0,
    response := none, resolved := none, steps_completed := [],
    reassignment_count := 0, knowledge_article_created := "Yes",
    customer_satisfaction := "Satisfied", manager_email := "manager@example.com" }

def inc_y : Incident :=
  { id := "INC-Y", category := "network", priority := "Critical", created := 0,
    response := none, resolved := some 20000, steps_completed := [],
    reassignment_count := 0, knowledge_article_created := "Yes",
    customer_satisfaction := "Satisfied", manager_email := "manager@example.com" }

def e_y : RiskEntry :=
  { id := "INC-Y", priority := "Critical", manager_email := "manager@example.com",
    status := "BREACHED", hours_remaining := none, deadline := 14400 }

/-- C10 counterexample: an unresolved incident one hour past its deadline
is not classified `AT_RISK` (nor anything else): the predictor output for
it is empty, because the truthy `NaN` resolved-check routes it to the
resolved arm where `NaT > deadline` is `False`. -/
theorem overdue_open_incident_no_entry_cex :
    inc_x.resolved = none ∧
    inc_x.created + (⟨1/4, 4⟩ : SlaEntry).resolution * 3600 < 18000 ∧
    predict_sla_breaches default_rules 18000 [inc_x] = Except.ok [] :=
  ⟨rfl, by norm_num [inc_x], rfl⟩

/-- C10 (amended): an unresolved incident whose deadline has already
passed — its unrounded remaining hours are negative — is classified
neither `AT_RISK` nor `BREACHED`: it produces no predictor entry at all,
since the truthy `NaN` check takes the resolved arm whose comparison is
false; every entry the predictor does emit is a `BREACHED` one, arising
from a record carrying a `resolved_at` later than its deadline. -/
theorem overdue_open_incident_spec (rules : RuleCatalog) (now : ℚ) (inc inc2 : Incident)
    (sla : SlaEntry) (e : RiskEntry)
    (hs : get_incident_sla rules inc.priority = some sla)
    (hopen : inc.resolved = none)
    (hlate : inc.created + sla.resolution * 3600 < now)
    (hb : risk_status_of sla now inc2 = some e) :
    (inc.created + sla.resolution * 3600 - now) / 3600 < 0 ∧
    risk_status_of sla now inc = none ∧
    predict_sla_breaches rules now [inc] = Except.ok [] ∧
    e.status = "BREACHED" ∧
    ∃ t, inc2.resolved = some t ∧ t > inc2.created + sla.resolution * 3600 := by
  have hneg : (inc.created + sla.resolution * 3600 - now) / 3600 < 0 :=
    div_neg_of_neg_of_pos (by linarith) (by norm_num)
  have hnone : risk_status_of sla now inc = none := by
    simp only [risk_status_of, hopen]
  refine ⟨hneg, hnone, ?_, ?_⟩
  · simp only [predict_sla_breaches]
    rw [hs]
    show Except.ok ((risk_status_of sla now inc).toList ++ []) = _
    rw [hnone]
    rfl
  · simp only [risk_status_of] at hb
    cases hres2 : inc2.resolved with
    | some t =>
      simp only [hres2] at hb
      by_cases hgt : t > inc2.created + sla.resolution * 3600
      · rw [if_pos hgt] at hb
        simp only [Option.some.injEq] at hb
        subst hb
        exact ⟨rfl, t, rfl, hgt⟩
      · rw [if_neg hgt] at hb
        simp at hb
    | none =>
      simp only [hres2] at hb
      simp at hb

theorem overdue_open_incident_spec_witness :
    inc_x.created + (⟨1/4, 4⟩ : SlaEntry).resolution * 3600 < 18000 ∧
    risk_status_of ⟨1/4, 4⟩ 18000 inc_y = some e_y ∧
    ((inc_x.created + (⟨1/4, 4⟩ : SlaEntry).resolution * 3600 - 18000) / 3600 < 0 ∧
     risk_status_of ⟨1/4, 4⟩ 18000 inc_x = none ∧
     predict_sla_breaches default_rules 18000 [inc_x] = Except.ok [] ∧
     e_y.status = "BREACHED" ∧
     ∃ t, inc_y.resolved = some t ∧ t > inc_y.created + (⟨1/4, 4⟩ : SlaEntry).resolution * 3600) := by
  have hb : risk_status_of ⟨1/4, 4⟩ 18000 inc_y = some e_y := by
    simp only [risk_status_of, inc_y, e_y]
    norm_num
  refine ⟨by norm_num [inc_x], hb, ?_⟩
  exact overdue_open_incident_spec default_rules 18000 inc_x inc_y ⟨1/4, 4⟩ e_y rfl rfl
    (by norm_num [inc_x]) hb

/-- Record with a `Priority` value outside the catalog enumeration. -/
def inc_bad : Incident :=
  { id := "INC-BAD", category := "network", priority := "Unknown", created := 0,
    response := none, resolved := none,
    steps_completed := ["Initial Assessment", "Network Diagnostics", "Root Cause Analysis",
      "Solution Implementation", "Testing", "Documentation", "Closure"],
    reassignment_count := 0, knowledge_article_created := "Yes",
    customer_satisfaction := "Satisfied", manager_email := "manager@example.com" }

/-- Well-formed record placed after the malformed one in the batch. -/
def inc_good : Incident :=
  { id := "INC-G", category := "network", priority := "Low", created := 0,
    response := none, resolved := none,
    steps_completed := ["Initial Assessment", "Network Diagnostics", "Root Cause Analysis",
      "Solution Implementation", "Testing", "Documentation", "Closure"],
    reassignment_count := 0, knowledge_article_created := "Yes",
    customer_satisfaction := "Satisfied", manager_email := "manager@example.com" }

/-- C6 counterexample: a batch holding one record with an unknown priority
followed by a well-formed record does not get evaluated past the bad
record — the whole run fails with the lookup error, even though the second
record evaluates cleanly on its own, so nothing is skipped, counted or
reported. -/
theorem batch_with_malformed_record_cex :
    run_incident_batch default_rules [inc_bad, inc_good] = Except.error "KeyError" ∧
    analyze_incident default_rules inc_good =
      Except.ok { id := "INC-G", deviations := [], deviation_count := 0,
                  compliance_status := "COMPLIANT" } :=
  ⟨rfl, rfl⟩

/-- C6 (amended): a record whose priority has no SLA row is not skipped:
`analyze_incident` fails on it, and since the batch loop of `main` has no
per-record handler the first such record aborts the whole batch with the
propagated error, producing no results for any record. -/
theorem malformed_record_aborts_batch (rules : RuleCatalog) (good : List Incident)
    (bad : Incident) (rest : List Incident)
    (hg : ∀ r ∈ good, (get_incident_sla rules r.priority).isSome)
    (hb : get_incident_sla rules bad.priority = none) :
    run_incident_batch rules (good ++ bad :: rest) = Except.error "KeyError" := by
  induction good with
  | nil =>
    simp only [List.nil_append, run_incident_batch]
    unfold analyze_incident
    rw [hb]
  | cons g gs ih =>
    obtain ⟨sla, hsla⟩ := Option.isSome_iff_exists.mp (hg g (List.mem_cons_self g gs))
    have htail := ih (fun x hx => hg x (List.mem_cons_of_mem g hx))
    simp only [List.cons_append, run_incident_batch, List.append_eq]
    rw [analyze_incident_ok hsla, htail]

theorem malformed_record_aborts_batch_witness :
    (get_incident_sla default_rules inc_good.priority).isSome = true ∧
    get_incident_sla default_rules inc_bad.priority = none ∧
    run_incident_batch default_rules ([inc_good] ++ inc_bad :: []) = Except.error "KeyError" :=
  ⟨rfl, rfl, malformed_record_aborts_batch default_rules [inc_good] inc_bad []
    (by decide) rfl⟩

/-- C8: adding a currently missing approval role to the obtained set, or
shrinking the required set for the change type, can only shrink the
reported missing list (a sublist of the old one, strictly shorter when a
missing role is added) and can never create a `MISSING_APPROVALS`
violation that was not already present. -/
theorem approvals_monotonicity_spec (rules rules2 : RuleCatalog) (chg : Change)
    (r : String) (chg2 : Change)
    (hr : r ∈ missing_approvals_of rules chg)
    (hchg2 : chg2 = { chg with obtained_approvals := r :: chg.obtained_approvals })
    (hsub : (get_change_approvals rules2 chg.change_type).Sublist
      (get_change_approvals rules chg.change_type)) :
    (missing_approvals_of rules chg2).Sublist (missing_approvals_of rules chg) ∧
    (missing_approvals_of rules chg2).length < (missing_approvals_of rules chg).length ∧
    r ∉ missing_approvals_of rules chg2 ∧
    (missing_approvals_of rules2 chg).Sublist (missing_approvals_of rules chg) ∧
    (violations_of "MISSING_APPROVALS" (analyze_change rules chg2).deviations ≠ [] →
      violations_of "MISSING_APPROVALS" (analyze_change rules chg).deviations ≠ []) ∧
    (violations_of "MISSING_APPROVALS" (analyze_change rules2 chg).deviations ≠ [] →
      violations_of "MISSING_APPROVALS" (analyze_change rules chg).deviations ≠ []) := by
  subst hchg2
  have h1 : (missing_approvals_of rules
      { chg with obtained_approvals := r :: chg.obtained_approvals }).Sublist
      (missing_approvals_of rules chg) := by
    simp only [missing_approvals_of]
    apply List.monotone_filter_right
    intro a ha
    simp only [decide_eq_true_eq] at ha ⊢
    intro hmem
    exact ha (List.mem_cons_of_mem r hmem)
  have h2 : r ∉ missing_approvals_of rules
      { chg with obtained_approvals := r :: chg.obtained_approvals } := by
    intro hmem
    simp only [missing_approvals_of, List.mem_filter, decide_eq_true_eq] at hmem
    exact hmem.2 (List.mem_cons_self r _)
  have h3 : (missing_approvals_of rules2 chg).Sublist (missing_approvals_of rules chg) := by
    simp only [missing_approvals_of]
    exact hsub.filter _
  have hlen : (missing_approvals_of rules
      { chg with obtained_approvals := r :: chg.obtained_approvals }).length <
      (missing_approvals_of rules chg).length := by
    rcases lt_or_eq_of_le h1.length_le with h | h
    · exact h
    · exfalso
      rw [← h1.eq_of_length h] at hr
      exact h2 hr
  refine ⟨h1, hlen, h2, h3, ?_, ?_⟩
  · intro hne
    rw [change_approvals_violations] at hne ⊢
    have hold : missing_approvals_of rules chg ≠ [] := by
      intro h0
      rw [h0] at h1
      exact hne (by rw [approvals_check, if_pos (List.sublist_nil.mp h1)])
    rw [approvals_check, if_neg hold]
    simp
  · intro hne
    rw [change_approvals_violations] at hne ⊢
    have hold : missing_approvals_of rules chg ≠ [] := by
      intro h0
      rw [h0] at h3
      exact hne (by rw [approvals_check, if_pos (List.sublist_nil.mp h3)])
    rw [approvals_check, if_neg hold]
    simp

/-- Catalog variant in which the Normal change type requires only the
Manager approval. -/
def rules2_w : RuleCatalog :=
  { default_rules with
    required_approvals := [("Standard", ["Pre-Approved"]), ("Normal", ["Manager"]),
      ("Emergency", ["IT Director", "ECAB"])] }

/-- The Scenario C change with the missing `CAB` role added to its
obtained approvals. -/
def chg_c2 : Change := { chg_c with obtained_approvals := "CAB" :: chg_c.obtained_approvals }

theorem approvals_monotonicity_spec_witness :
    "CAB" ∈ missing_approvals_of default_rules chg_c ∧
    (get_change_approvals rules2_w chg_c.change_type).Sublist
      (get_change_approvals default_rules chg_c.change_type) ∧
    ((missing_approvals_of default_rules chg_c2).Sublist
        (missing_approvals_of default_rules chg_c) ∧
     (missing_approvals_of default_rules chg_c2).length <
        (missing_approvals_of default_rules chg_c).length ∧
     "CAB" ∉ missing_approvals_of default_rules chg_c2 ∧
     (missing_approvals_of rules2_w chg_c).Sublist (missing_approvals_of default_rules chg_c) ∧
     (violations_of "MISSING_APPROVALS" (analyze_change default_rules chg_c2).deviations ≠ [] →
       violations_of "MISSING_APPROVALS" (analyze_change default_rules chg_c).deviations ≠ []) ∧
     (violations_of "MISSING_APPROVALS" (analyze_change rules2_w chg_c).deviations ≠ [] →
       violations_of "MISSING_APPROVALS" (analyze_change default_rules chg_c).deviations ≠ [])) :=
  ⟨by decide, by decide,
    approvals_monotonicity_spec default_rules rules2_w chg_c "CAB" chg_c2
      (by decide) rfl (by decide)⟩
